import Mathlib

/-!
# Verification of `src/newton_4818.py` (`opt_tech`)

Shallow embedding of the two optimisation routines of the `opt_tech`
class: `newtons_method` (Newton's method on the first derivative) and
`golden_section` (golden-section interval elimination).  Ordinary
numeric values are embedded as exact rationals `ℚ`; the rounding that
the source applies when *printing* values (`round`, format specifiers)
is presentation only and is not part of the numeric state.  The
objective function and its sympy derivatives are external collaborators
and enter the embedding as function parameters.

For the failure analysis of Newton's method we additionally model the
extended values of sympy arithmetic (`zoo`, `oo`, `-oo`, `nan`) in the
type `SymNum`, because sympy division by zero does not raise: it
produces `ComplexInfinity`.
-/

/-- The truncated golden-ratio factor `.618` that the source uses in
`golden_section` (lines 121, 126, 132, 133), as an exact rational.
Note `.618` is *not* the exact reciprocal golden ratio `(√5 - 1)/2`. -/
def phiConst : ℚ := 309 / 500

/-- One iteration of the `golden_section` loop (source lines 130–152):
from the current bracket `(xl, xu)` compute the probes
`x2 = xu - .618*(xu - xl)` and `x1 = xl + .618*(xu - xl)` (lines
132–133), evaluate the objective at both (lines 135–136), and eliminate
one sub-interval (lines 145–152): if `f x1 > f x2` then `xl := x2`,
otherwise `xu := x1`.  The second components of the Python tuple
assignments (`x2 = x1`, `x1 = x2`) are dead stores: both probe
variables are recomputed at the top of the next loop iteration, so only
the bracket survives an iteration. -/
def goldenStep (f : ℚ → ℚ) (b : ℚ × ℚ) : ℚ × ℚ :=
  let xl := b.1
  let xu := b.2
  let x2 := xu - phiConst * (xu - xl)
  let x1 := xl + phiConst * (xu - xl)
  if f x1 > f x2 then (x2, xu) else (xl, x1)

/-- The bracket held by `golden_section` after `i` loop iterations. -/
def goldenBracket (f : ℚ → ℚ) (xl xu : ℚ) : ℕ → ℚ × ℚ
  | 0 => (xl, xu)
  | i + 1 => goldenStep f (goldenBracket f xl xu i)

/-- One printed row of the golden-section table (source lines 139–141),
holding unrounded values.  `width` is the `xu-xl` column and `errBound`
the `errBound` column; the source computes both directly from the
*original* bounds (lines 119–127), not from the live bracket. -/
structure GoldenRow where
  i : ℕ
  xl : ℚ
  x2 : ℚ
  x1 : ℚ
  xu : ℚ
  fx2 : ℚ
  fx1 : ℚ
  width : ℚ
  errBound : ℚ
deriving DecidableEq, Repr, Inhabited

/-- The table row printed at loop index `i` of `golden_section`:
probes and objective values come from the live bracket (lines 132–139),
while `width = (xu₀-xl₀)*.618^i` (line 121) and
`errBound = (xu₀-xl₀)*.618^(i+2)` (line 126) are precomputed from the
original input bounds. -/
def goldenRow (f : ℚ → ℚ) (xl0 xu0 : ℚ) (i : ℕ) : GoldenRow :=
  let b := goldenBracket f xl0 xu0 i
  let x2 := b.2 - phiConst * (b.2 - b.1)
  let x1 := b.1 + phiConst * (b.2 - b.1)
  { i := i + 1
    xl := b.1
    x2 := x2
    x1 := x1
    xu := b.2
    fx2 := f x2
    fx1 := f x1
    width := (xu0 - xl0) * phiConst ^ i
    errBound := (xu0 - xl0) * phiConst ^ (i + 2) }

/-- `opt_tech.golden_section` (source lines 94–153): runs `itr_no` loop
iterations, emits one table row per iteration, and is left with the
final bracket.  The source performs no validation whatsoever of the
bracket or of the iteration count. -/
def golden_section (f : ℚ → ℚ) (xl xu : ℚ) (itr_no : ℕ) :
    List GoldenRow × (ℚ × ℚ) :=
  ((List.range itr_no).map (goldenRow f xl xu), goldenBracket f xl xu itr_no)

/-- Both branches of the elimination rule shrink the bracket width by
exactly the factor `.618`. -/
lemma goldenStep_width (f : ℚ → ℚ) (b : ℚ × ℚ) :
    (goldenStep f b).2 - (goldenStep f b).1 = phiConst * (b.2 - b.1) := by
  simp only [goldenStep]
  split_ifs <;> dsimp only <;> ring

/-- The live bracket width after `i` iterations is exactly
`(xu₀ - xl₀) * .618 ^ i`. -/
lemma goldenBracket_width (f : ℚ → ℚ) (xl0 xu0 : ℚ) (i : ℕ) :
    (goldenBracket f xl0 xu0 i).2 - (goldenBracket f xl0 xu0 i).1 =
      (xu0 - xl0) * phiConst ^ i := by
  induction i with
  | zero => simp [goldenBracket]
  | succ n ih =>
      rw [goldenBracket, goldenStep_width, ih]
      ring

lemma phiConst_pos : 0 < phiConst := by norm_num [phiConst]

lemma phiConst_lt_one : phiConst < 1 := by norm_num [phiConst]

/-- A valid initial bracket keeps a positive live width forever. -/
lemma goldenBracket_width_pos (f : ℚ → ℚ) (xl0 xu0 : ℚ) (h : xl0 < xu0)
    (i : ℕ) :
    0 < (goldenBracket f xl0 xu0 i).2 - (goldenBracket f xl0 xu0 i).1 := by
  rw [goldenBracket_width]
  exact mul_pos (by linarith) (pow_pos phiConst_pos i)

/-- C3: every iteration of `golden_section` computes the probes
`x2 = xu - .618*(xu - xl)` and `x1 = xl + .618*(xu - xl)` from the live
bracket, evaluates `fx1 = f x1` and `fx2 = f x2`, emits them in the
table row, and applies the elimination rule: if `fx1 > fx2` the next
bracket is `(x2, xu)` (i.e. `xl := x2`), otherwise — ties included —
it is `(xl, x1)` (i.e. `xu := x1`). -/
theorem golden_iteration_rows (f : ℚ → ℚ) (xl0 xu0 : ℚ) (N i : ℕ)
    (hi : i < N) (r : GoldenRow) (hr : r = goldenRow f xl0 xu0 i) :
    (golden_section f xl0 xu0 N).1[i]? = some r ∧
    (r.xl, r.xu) = goldenBracket f xl0 xu0 i ∧
    r.x2 = r.xu - phiConst * (r.xu - r.xl) ∧
    r.x1 = r.xl + phiConst * (r.xu - r.xl) ∧
    r.fx2 = f r.x2 ∧
    r.fx1 = f r.x1 ∧
    goldenBracket f xl0 xu0 (i + 1) =
      (if r.fx1 > r.fx2 then (r.x2, r.xu) else (r.xl, r.x1)) := by
  subst hr
  refine ⟨?_, rfl, rfl, rfl, rfl, rfl, ?_⟩
  · simp [golden_section, List.getElem?_map, List.getElem?_range, hi]
  · rfl

/-- Witness for C3: the first row of the run on `f x = x`, bracket
`(0, 1)`, matches the probe formulas; all values evaluated. -/
theorem golden_iteration_rows_witness :
    (golden_section (fun x : ℚ => x) 0 1 1).1[0]? =
      some ⟨1, 0, 191/500, 309/500, 1, 191/500, 309/500, 1, 95481/250000⟩ := by
  have h := (golden_iteration_rows (fun x : ℚ => x) 0 1 1 0 (by decide)
    (goldenRow (fun x : ℚ => x) 0 1 0) rfl).1
  refine h.trans ?_
  norm_num [goldenRow, goldenBracket, phiConst]

/-- C4: for a valid initial bracket the live width after `i` iterations
is exactly `(xu₀ - xl₀) * .618 ^ i`, it strictly decreases at every
iteration, and it coincides with the directly-computed `xu-xl` column
of the trace. -/
theorem golden_width_decrease (f : ℚ → ℚ) (xl0 xu0 : ℚ) (h : xl0 < xu0)
    (N : ℕ) (_hN : 1 ≤ N) :
    (∀ i, (goldenBracket f xl0 xu0 i).2 - (goldenBracket f xl0 xu0 i).1 =
        (xu0 - xl0) * phiConst ^ i) ∧
    (∀ i, (goldenBracket f xl0 xu0 (i + 1)).2 -
            (goldenBracket f xl0 xu0 (i + 1)).1 <
          (goldenBracket f xl0 xu0 i).2 - (goldenBracket f xl0 xu0 i).1) ∧
    (∀ i < N, (golden_section f xl0 xu0 N).1[i]?.map GoldenRow.width =
        some ((goldenBracket f xl0 xu0 i).2 - (goldenBracket f xl0 xu0 i).1)) := by
  refine ⟨goldenBracket_width f xl0 xu0, ?_, ?_⟩
  · intro i
    rw [goldenBracket_width, goldenBracket_width, pow_succ]
    have hw : 0 < (xu0 - xl0) * phiConst ^ i :=
      mul_pos (by linarith) (pow_pos phiConst_pos i)
    nlinarith [phiConst_lt_one, phiConst_pos]
  · intro i hi
    simp [golden_section, List.getElem?_map, List.getElem?_range, hi,
      goldenRow, goldenBracket_width]

/-- Witness for C4: on `f x = x` with bracket `(0, 1)` the live width
after two iterations is `(1 - 0) * .618 ^ 2`. -/
theorem golden_width_decrease_witness :
    (goldenBracket (fun x : ℚ => x) 0 1 2).2 -
        (goldenBracket (fun x : ℚ => x) 0 1 2).1 =
      ((1 : ℚ) - 0) * phiConst ^ 2 :=
  (golden_width_decrease (fun x => x) 0 1 (by norm_num) 1 (le_refl 1)).1 2

/-- C9: started with `xl₀ < xu₀`, every iteration's probes satisfy
`xl < x2 < x1 < xu`, and the ordering persists through every bracket
update (it holds at every iteration index `i`). -/
theorem golden_probe_ordering (f : ℚ → ℚ) (xl0 xu0 : ℚ) (h : xl0 < xu0)
    (i : ℕ) (r : GoldenRow) (hr : r = goldenRow f xl0 xu0 i) :
    r.xl < r.x2 ∧ r.x2 < r.x1 ∧ r.x1 < r.xu := by
  subst hr
  have hw := goldenBracket_width_pos f xl0 xu0 h i
  simp only [goldenRow, phiConst]
  refine ⟨by linarith, by linarith, by linarith⟩

/-- Witness for C9: probe ordering at iteration 1 of the run on
`f x = x`, bracket `(0, 1)`. -/
theorem golden_probe_ordering_witness :
    (goldenRow (fun x : ℚ => x) 0 1 1).xl < (goldenRow (fun x : ℚ => x) 0 1 1).x2 ∧
    (goldenRow (fun x : ℚ => x) 0 1 1).x2 < (goldenRow (fun x : ℚ => x) 0 1 1).x1 ∧
    (goldenRow (fun x : ℚ => x) 0 1 1).x1 < (goldenRow (fun x : ℚ => x) 0 1 1).xu :=
  golden_probe_ordering (fun x => x) 0 1 (by norm_num) 1 _ rfl

/-- Counterexample to C5: on `f x = x` with bracket `(0, 1)` the first
iteration takes the `fx1 > fx2` branch, yet *neither* probe of the
second iteration equals a probe of the first: the code recomputes both
probes from the updated bracket with the truncated factor `.618`, and
`.618^2 = 0.381924 ≠ 0.382 = 1 - .618`, so the recomputed `x2`
(`154519/250000`) misses the former `x1` (`154500/250000`) by
`19/250000`. -/
theorem golden_reuse_counterexample :
    (goldenRow (fun x : ℚ => x) 0 1 1).x2 ≠ (goldenRow (fun x : ℚ => x) 0 1 0).x1 ∧
    (goldenRow (fun x : ℚ => x) 0 1 1).x2 ≠ (goldenRow (fun x : ℚ => x) 0 1 0).x2 ∧
    (goldenRow (fun x : ℚ => x) 0 1 1).x1 ≠ (goldenRow (fun x : ℚ => x) 0 1 0).x1 ∧
    (goldenRow (fun x : ℚ => x) 0 1 1).x1 ≠ (goldenRow (fun x : ℚ => x) 0 1 0).x2 := by
  norm_num [goldenRow, goldenBracket, goldenStep, phiConst]

/-- C5 as amended: the probe recomputed in the next iteration is *not*
carried over exactly; it misses the probe it is meant to reuse by
exactly `(1 - .618 - .618^2) * (xu - xl) = (19/250000) * (xu - xl)`:
after the `fx1 > fx2` branch the next `x2` equals the former `x1` plus
that offset, and after the other branch the next `x1` equals the former
`x2` minus that offset.  (With the exact reciprocal golden ratio in
place of `.618` the offset would vanish.) -/
theorem golden_probe_offset (f : ℚ → ℚ) (xl xu x2 x1 : ℚ)
    (hx2 : x2 = xu - phiConst * (xu - xl))
    (hx1 : x1 = xl + phiConst * (xu - xl)) :
    (f x1 > f x2 →
      (goldenStep f (xl, xu)).2 - phiConst *
          ((goldenStep f (xl, xu)).2 - (goldenStep f (xl, xu)).1) =
        x1 + 19 / 250000 * (xu - xl)) ∧
    (¬ f x1 > f x2 →
      (goldenStep f (xl, xu)).1 + phiConst *
          ((goldenStep f (xl, xu)).2 - (goldenStep f (xl, xu)).1) =
        x2 - 19 / 250000 * (xu - xl)) := by
  subst hx2 hx1
  constructor <;> intro hc
  · have hs : goldenStep f (xl, xu) =
        (xu - phiConst * (xu - xl), xu) := by
      simp only [goldenStep]
      rw [if_pos hc]
    rw [hs]
    dsimp only
    simp only [phiConst]
    ring
  · have hs : goldenStep f (xl, xu) =
        (xl, xl + phiConst * (xu - xl)) := by
      simp only [goldenStep]
      rw [if_neg hc]
    rw [hs]
    dsimp only
    simp only [phiConst]
    ring

/-- Witness for the amended C5: on `f x = x`, bracket `(0, 1)`, the
`fx1 > fx2` branch fires and the next `x2` is the former `x1` plus
`19/250000`. -/
theorem golden_probe_offset_witness :
    (goldenStep (fun x : ℚ => x) (0, 1)).2 - phiConst *
        ((goldenStep (fun x : ℚ => x) (0, 1)).2 -
          (goldenStep (fun x : ℚ => x) (0, 1)).1) =
      (0 + phiConst * (1 - 0)) + 19 / 250000 * ((1 : ℚ) - 0) :=
  (golden_probe_offset (fun x : ℚ => x) 0 1 _ _ rfl rfl).1
    (by norm_num [phiConst])

/-- Counterexample to C7: calling `golden_section` with
`lower_bound = upper_bound = 2` does not fail: all three requested
iterations run and emit table rows, and the degenerate bracket `(2, 2)`
is returned. -/
theorem golden_invalid_bracket_counterexample :
    (golden_section (fun x : ℚ => x) 2 2 3).1.length = 3 ∧
    (golden_section (fun x : ℚ => x) 2 2 3).2 = (2, 2) := by
  constructor
  · simp [golden_section]
  · norm_num [golden_section, goldenBracket, goldenStep, phiConst]

/-- C7 as amended: `golden_section` performs no bracket validation:
with `lower_bound ≥ upper_bound` it still runs every requested
iteration and emits one table row per iteration (there is no
InvalidBracket error anywhere in the code). -/
theorem golden_no_bracket_check (f : ℚ → ℚ) (xl xu : ℚ) (_h : xu ≤ xl)
    (N : ℕ) :
    (golden_section f xl xu N).1.length = N := by
  simp [golden_section]

/-- Witness for the amended C7: the degenerate bracket `(2, 2)` still
produces three table rows. -/
theorem golden_no_bracket_check_witness :
    (golden_section (fun x : ℚ => x) 2 2 3).1.length = 3 :=
  golden_no_bracket_check (fun x : ℚ => x) 2 2 (le_refl 2) 3

/-- The sequence of Newton iterates (source lines 65–77): `xIter 0` is
the initial guess `xo`, and line 70 gives
`xIter (i+1) = xIter i - df (xIter i) / ddf (xIter i)`.
`df` and `ddf` are the first and second derivative of the objective,
obtained ONCE before the loop from the external sympy differentiation
provider (lines 61–63); the embedding receives them as fixed function
parameters.  Rational division is total in Lean (`q / 0 = 0`), so this
model is faithful to the sympy run only while `ddf` is nonzero at every
visited point; the `SymNum` model below covers what sympy actually does
at a zero denominator. -/
def xIter (df ddf : ℚ → ℚ) (xo : ℚ) : ℕ → ℚ
  | 0 => xo
  | i + 1 => xIter df ddf xo i - df (xIter df ddf xo i) / ddf (xIter df ddf xo i)

/-- The relative error `|xi_new - xi_old| / |xi_new|` of source line 73. -/
def relative_error (xi_new xi_old : ℚ) : ℚ := |xi_new - xi_old| / |xi_new|

/-- The observable outcome of `opt_tech.newtons_method`: the per-
iteration records `(i+1, xi_new, relative_error)` printed by line 74,
the first-derivative value `f_dash` at the final approximation (line
81), the acceptance flag of line 83, and the reported maximum (`some`
exactly when line 88 prints `fmax`, `none` when line 91 prints
`rejected`). -/
structure NewtonResult where
  records : List (ℕ × ℚ × ℚ)
  f_dash : ℚ
  accepted : Bool
  fmax : Option ℚ
deriving DecidableEq, Repr

/-- `opt_tech.newtons_method` (source lines 43–92): iterate line 70
exactly `itr_no` times recording `(i+1, xi_new, relative_error)` each
time, then evaluate `f_dash = df x_final` (line 81), accept iff
`|f_dash| <= 0.01` (line 83) and report `fmax = f x_final` only on
acceptance (lines 84–91).  The source validates neither the iteration
count nor the denominators. -/
def newtons_method (f df ddf : ℚ → ℚ) (xo : ℚ) (itr_no : ℕ) :
    NewtonResult :=
  let xfin := xIter df ddf xo itr_no
  let fd := df xfin
  let acc : Bool := decide (|fd| ≤ 1 / 100)
  { records := (List.range itr_no).map fun i =>
      (i + 1, xIter df ddf xo (i + 1),
        relative_error (xIter df ddf xo (i + 1)) (xIter df ddf xo i))
    f_dash := fd
    accepted := acc
    fmax := if acc then some (f xfin) else none }

/-- C1: with `df`/`ddf` fixed before the loop, a run of `itr_no = N ≥ 1`
iterations emits exactly `N` records; the `i`-th record is
`(i+1, x_new, |x_new - x_old| / |x_new|)` and each new iterate is
`x_old - df x_old / ddf x_old`.  The two nonvanishing hypotheses pin
the run to inputs on which total rational division agrees with the
sympy arithmetic of the source. -/
theorem newton_iteration_trace (f df ddf : ℚ → ℚ) (xo : ℚ) (N : ℕ)
    (_hN : 1 ≤ N)
    (_hdd : ∀ i < N, ddf (xIter df ddf xo i) ≠ 0)
    (_hnz : ∀ i < N, xIter df ddf xo (i + 1) ≠ 0) :
    (newtons_method f df ddf xo N).records.length = N ∧
    (∀ i < N, (newtons_method f df ddf xo N).records[i]? =
      some (i + 1, xIter df ddf xo (i + 1),
        relative_error (xIter df ddf xo (i + 1)) (xIter df ddf xo i))) ∧
    (∀ i < N, xIter df ddf xo (i + 1) =
      xIter df ddf xo i - df (xIter df ddf xo i) / ddf (xIter df ddf xo i)) := by
  refine ⟨by simp [newtons_method], ?_, fun i _ => rfl⟩
  intro i hi
  simp [newtons_method, List.getElem?_map, List.getElem?_range, hi]

/-- Witness for C1: maximising `f x = 4x - x²` from `x₀ = 0` in one
iteration: the single record is `(1, 2, 1)` (`x₁ = 0 - 4/(-2) = 2`,
relative error `|2-0|/|2| = 1`). -/
theorem newton_iteration_trace_witness :
    (newtons_method (fun x : ℚ => 4*x - x^2) (fun x => 4 - 2*x)
        (fun _ => -2) 0 1).records[0]? = some (1, 2, 1) := by
  have h := (newton_iteration_trace (fun x : ℚ => 4*x - x^2)
    (fun x => 4 - 2*x) (fun _ => -2) 0 1 (le_refl 1)
    (by intro i hi; interval_cases i; norm_num [xIter])
    (by intro i hi; interval_cases i; norm_num [xIter])).2.1 0 (by norm_num)
  refine h.trans ?_
  norm_num [xIter, relative_error]

/-- C2: after the loop the verdict is decided by `f_dash = df x_final`:
the point is accepted exactly when `|f_dash| ≤ 0.01`, in which case
`f x_final` is reported as the maximum; otherwise no maximum value is
reported. -/
theorem newton_verdict (f df ddf : ℚ → ℚ) (xo : ℚ) (N : ℕ)
    (_hN : 1 ≤ N)
    (_hdd : ∀ i < N, ddf (xIter df ddf xo i) ≠ 0)
    (_hnz : ∀ i < N, xIter df ddf xo (i + 1) ≠ 0) :
    (newtons_method f df ddf xo N).f_dash = df (xIter df ddf xo N) ∧
    ((newtons_method f df ddf xo N).accepted = true ↔
      |df (xIter df ddf xo N)| ≤ 1 / 100) ∧
    (|df (xIter df ddf xo N)| ≤ 1 / 100 →
      (newtons_method f df ddf xo N).fmax = some (f (xIter df ddf xo N))) ∧
    (¬ |df (xIter df ddf xo N)| ≤ 1 / 100 →
      (newtons_method f df ddf xo N).fmax = none) := by
  refine ⟨rfl, by simp [newtons_method], ?_, ?_⟩
  · intro hle
    simp [newtons_method, hle]
    linarith
  · intro hle
    have hlt := lt_of_not_le hle
    simp [newtons_method, hle]
    linarith

/-- Witness for C2: the one-iteration run on `f x = 4x - x²` from
`x₀ = 0` ends at `x = 2` with `f'(2) = 0`, is accepted, and reports
`fmax = f 2 = 4`. -/
theorem newton_verdict_witness :
    (newtons_method (fun x : ℚ => 4*x - x^2) (fun x => 4 - 2*x)
        (fun _ => -2) 0 1).fmax = some 4 := by
  have h := (newton_verdict (fun x : ℚ => 4*x - x^2) (fun x => 4 - 2*x)
    (fun _ => -2) 0 1 (le_refl 1)
    (by intro i hi; interval_cases i; norm_num [xIter])
    (by intro i hi; interval_cases i; norm_num [xIter])).2.2.1
    (by norm_num [xIter])
  refine h.trans ?_
  norm_num [xIter]

/-- Counterexample to C8: calling `newtons_method` with an iteration
count of `0` does not fail: the loop is skipped, no record is emitted,
and the run still completes normally — here it even *accepts* the
untouched initial guess (`f' 0 = 0`) and reports `fmax = f 0 = 0`.
`golden_section` likewise completes with zero rows. -/
theorem iteration_count_zero_counterexample :
    (newtons_method (fun x : ℚ => x^2) (fun x => 2*x) (fun _ => 2)
        0 0).records = [] ∧
    (newtons_method (fun x : ℚ => x^2) (fun x => 2*x) (fun _ => 2)
        0 0).accepted = true ∧
    (newtons_method (fun x : ℚ => x^2) (fun x => 2*x) (fun _ => 2)
        0 0).fmax = some 0 ∧
    (golden_section (fun x : ℚ => x) 0 1 0).1 = [] ∧
    (golden_section (fun x : ℚ => x) 0 1 0).2 = (0, 1) := by
  refine ⟨rfl, ?_, ?_, rfl, rfl⟩ <;> norm_num [newtons_method, xIter]

/-- C8 as amended: neither optimizer validates the iteration count:
with `itr_no = 0` both complete normally after zero iterations —
`newtons_method` emits no record but still evaluates the verdict at the
initial guess, and `golden_section` emits no table row and leaves the
input bracket unchanged.  No InvalidIterationCount error exists in the
code. -/
theorem zero_iterations_complete (f df ddf : ℚ → ℚ) (xo : ℚ)
    (g : ℚ → ℚ) (xl xu : ℚ) (N : ℕ) (hN : N < 1) :
    (newtons_method f df ddf xo N).records = [] ∧
    (newtons_method f df ddf xo N).f_dash = df xo ∧
    (golden_section g xl xu N).1 = [] ∧
    (golden_section g xl xu N).2 = (xl, xu) := by
  have h0 : N = 0 := Nat.lt_one_iff.mp hN
  subst h0
  exact ⟨rfl, rfl, rfl, rfl⟩

/-- Witness for the amended C8: the zero-iteration Newton run on
`f x = x²` from `x₀ = 3` emits no records and evaluates `f'` at `3`
itself. -/
theorem zero_iterations_complete_witness :
    (newtons_method (fun x : ℚ => x^2) (fun x => 2*x) (fun _ => 2)
        3 0).records = [] ∧
    (newtons_method (fun x : ℚ => x^2) (fun x => 2*x) (fun _ => 2)
        3 0).f_dash = (fun x : ℚ => 2*x) 3 ∧
    (golden_section (fun x : ℚ => x) 2 5 0).1 = [] ∧
    (golden_section (fun x : ℚ => x) 2 5 0).2 = (2, 5) :=
  zero_iterations_complete (fun x : ℚ => x^2) (fun x => 2*x) (fun _ => 2)
    3 (fun x : ℚ => x) 2 5 0 (by decide)

/-- The extended values of sympy arithmetic as they arise inside
`newtons_method`: an ordinary finite number, `zoo` (ComplexInfinity,
the result of dividing a nonzero exact number by exact zero), the
directed infinities `oo` / `-oo` (e.g. `Abs zoo = oo`), and `nan`
(e.g. `0/0`, `oo/oo`).  sympy division by an exact zero does NOT raise
an exception — it returns `zoo` — so the unguarded divisions of source
lines 70 and 73 never produce a Python ZeroDivisionError. -/
inductive SymNum where
  | fin : ℚ → SymNum
  | zoo : SymNum
  | oo : SymNum
  | negoo : SymNum
  | nan : SymNum
deriving DecidableEq, Repr

/-- sympy subtraction `a - b` on extended values: `nan` absorbs, `zoo`
absorbs against finite values, and clashes of infinities give `nan`. -/
def SymNum.sub : SymNum → SymNum → SymNum
  | .nan, _ => .nan
  | _, .nan => .nan
  | .fin a, .fin b => .fin (a - b)
  | .zoo, .fin _ => .zoo
  | .fin _, .zoo => .zoo
  | .zoo, .zoo => .nan
  | .zoo, .oo => .nan
  | .zoo, .negoo => .nan
  | .oo, .zoo => .nan
  | .negoo, .zoo => .nan
  | .oo, .fin _ => .oo
  | .fin _, .oo => .negoo
  | .negoo, .fin _ => .negoo
  | .fin _, .negoo => .oo
  | .oo, .oo => .nan
  | .oo, .negoo => .oo
  | .negoo, .oo => .negoo
  | .negoo, .negoo => .nan

/-- sympy absolute value on extended values: every infinite magnitude
has absolute value `oo`. -/
def SymNum.abs : SymNum → SymNum
  | .fin a => .fin |a|
  | .zoo => .oo
  | .oo => .oo
  | .negoo => .oo
  | .nan => .nan

/-- sympy division `a / b` on extended values: a nonzero finite (or
infinite) numerator over exact zero gives `zoo`, `0/0` gives `nan`, a
finite numerator over an infinite denominator gives `0`, and a ratio of
two infinities gives `nan`. -/
def SymNum.div : SymNum → SymNum → SymNum
  | .nan, _ => .nan
  | _, .nan => .nan
  | .fin a, .fin b =>
      if b = 0 then (if a = 0 then .nan else .zoo) else .fin (a / b)
  | .zoo, .fin _ => .zoo
  | .fin _, .zoo => .fin 0
  | .oo, .fin b => if b = 0 then .zoo else if 0 < b then .oo else .negoo
  | .negoo, .fin b => if b = 0 then .zoo else if 0 < b then .negoo else .oo
  | .fin _, .oo => .fin 0
  | .fin _, .negoo => .fin 0
  | .zoo, .zoo => .nan
  | .zoo, .oo => .nan
  | .zoo, .negoo => .nan
  | .oo, .zoo => .nan
  | .oo, .oo => .nan
  | .oo, .negoo => .nan
  | .negoo, .zoo => .nan
  | .negoo, .oo => .nan
  | .negoo, .negoo => .nan

/-- Source line 73 over extended values:
`relative_error = Abs(xi_new - xi_old) / Abs(xi_new)`. -/
def relErrSym (xi_new xi_old : SymNum) : SymNum :=
  SymNum.div (SymNum.abs (SymNum.sub xi_new xi_old)) (SymNum.abs xi_new)

/-- One Newton loop body (source lines 70–75) over extended values:
the new iterate `xi_new = xi_old - df xi_old / ddf xi_old` and the
relative error of the emitted record. -/
def newtonStepSym (df ddf : SymNum → SymNum) (x : SymNum) :
    SymNum × SymNum :=
  let xn := SymNum.sub x (SymNum.div (df x) (ddf x))
  (xn, relErrSym xn x)

/-- On finite values with a nonzero denominator and a nonzero new
iterate, the extended-value step agrees with the rational model used
in `newtons_method`; the `ℚ` embedding is faithful on that domain. -/
lemma newtonStepSym_fin (df ddf : ℚ → ℚ) (dfS ddfS : SymNum → SymNum)
    (x : ℚ) (hdf : dfS (SymNum.fin x) = SymNum.fin (df x))
    (hddf : ddfS (SymNum.fin x) = SymNum.fin (ddf x))
    (hdd : ddf x ≠ 0) (hnz : x - df x / ddf x ≠ 0) :
    newtonStepSym dfS ddfS (SymNum.fin x) =
      (SymNum.fin (x - df x / ddf x),
        SymNum.fin (relative_error (x - df x / ddf x) x)) := by
  simp [newtonStepSym, hdf, hddf, relErrSym, relative_error,
    SymNum.div, SymNum.sub, SymNum.abs, hdd, abs_eq_zero, hnz]

/-- Counterexample to C6: run the Newton body on `f x = x` (sympy
derivatives: `df ≡ 1`, `ddf ≡ 0`) at `x₀ = 1`.  No division-by-zero
error occurs: `1/0` evaluates to `zoo`, the new iterate is
`1 - zoo = zoo`, and the record's relative error is
`Abs(zoo - 1)/Abs(zoo) = oo/oo = nan` — the non-finite values are
produced silently instead of aborting the run with an error kind. -/
theorem newton_zero_ddf_counterexample :
    newtonStepSym (fun _ => SymNum.fin 1) (fun _ => SymNum.fin 0)
      (SymNum.fin 1) = (SymNum.zoo, SymNum.nan) := by
  norm_num [newtonStepSym, relErrSym, SymNum.div, SymNum.sub, SymNum.abs]

/-- C6 as amended: `newtons_method` has no zero check on the second
derivative.  At a visited finite point where `ddf` evaluates to zero
and `df` does not, the unguarded division of line 70 yields sympy's
complex infinity, and the iteration silently produces the record
values `xi_new = zoo` and relative error `nan`; no DivisionByZero
error kind exists in the code. -/
theorem newton_zero_ddf_propagates (df ddf : SymNum → SymNum) (x c : ℚ)
    (hdd : ddf (SymNum.fin x) = SymNum.fin 0)
    (hdf : df (SymNum.fin x) = SymNum.fin c) (hc : c ≠ 0) :
    newtonStepSym df ddf (SymNum.fin x) = (SymNum.zoo, SymNum.nan) := by
  simp [newtonStepSym, relErrSym, hdd, hdf, SymNum.div, SymNum.sub,
    SymNum.abs, hc]

/-- Witness for the amended C6: `df ≡ 2`, `ddf ≡ 0` at `x = 5`. -/
theorem newton_zero_ddf_propagates_witness :
    newtonStepSym (fun _ => SymNum.fin 2) (fun _ => SymNum.fin 0)
      (SymNum.fin 5) = (SymNum.zoo, SymNum.nan) :=
  newton_zero_ddf_propagates (fun _ => SymNum.fin 2)
    (fun _ => SymNum.fin 0) 5 2 rfl rfl (by norm_num)

/-- C10: line 73 divides by `|xi_new|` with no guard.  Over sympy
values: a new approximation of exactly `0` (previous iterate nonzero)
makes the relative error a division by zero, yielding `zoo` — not an
ordinary number, so no finite record can be produced; `0` twice yields
`nan`; and for any nonzero new approximation the record is the
ordinary finite value `|xi_new - xi_old| / |xi_new|`.  The iteration
is thus well-defined exactly under the implicit precondition that
every new iterate is nonzero. -/
theorem newton_relative_error_unguarded :
    (∀ xo : ℚ, xo ≠ 0 →
      relErrSym (SymNum.fin 0) (SymNum.fin xo) = SymNum.zoo) ∧
    relErrSym (SymNum.fin 0) (SymNum.fin 0) = SymNum.nan ∧
    (∀ xn xo : ℚ, xn ≠ 0 →
      relErrSym (SymNum.fin xn) (SymNum.fin xo) =
        SymNum.fin (relative_error xn xo)) := by
  refine ⟨?_, ?_, ?_⟩
  · intro xo h
    simp [relErrSym, SymNum.sub, SymNum.abs, SymNum.div, abs_eq_zero, h]
  · simp [relErrSym, SymNum.sub, SymNum.abs, SymNum.div]
  · intro xn xo h
    simp [relErrSym, SymNum.sub, SymNum.abs, SymNum.div, relative_error,
      abs_eq_zero, h]

/-- Witness for C10: `xi_new = 0` after `xi_old = 1` gives `zoo`;
`xi_new = 2` after `xi_old = 1` gives the finite `|2-1|/|2|`. -/
theorem newton_relative_error_unguarded_witness :
    relErrSym (SymNum.fin 0) (SymNum.fin 1) = SymNum.zoo ∧
    relErrSym (SymNum.fin 2) (SymNum.fin 1) =
      SymNum.fin (relative_error 2 1) :=
  ⟨newton_relative_error_unguarded.1 1 (by norm_num),
    newton_relative_error_unguarded.2.2 2 1 (by norm_num)⟩
